import Mathlib

/-!
Shallow embedding of the particle fluid simulator (grid.hpp / grid.cpp).

Modelling conventions:
* C++ `float` values are modelled as exact rationals (`ℚ`).  All the claims
  under study are about the algebraic structure of the computation, not about
  rounding, so the idealised-real reading of the spec is used.
* `std::sqrt` (and the `sqrt`/`fmin` calls of the integration pass) is a
  square-root routine whose numerical values none of the claims depend on; it
  is threaded through every definition as an explicit parameter
  `rsqrt : ℚ → ℚ`, and every theorem is proved for an arbitrary such routine.
* The particle array `Grille::vertices` (a flat `std::vector<Vertex>` indexed
  by `idx3`) is a `List Vertex`; the triply nested cubic fields
  (`vx…az`, `pressure`, `div`) are functions `ℕ → ℕ → ℕ → ℚ`, updated with an
  in-range guard mirroring the loop bounds of the corresponding `omp for`.
* Each parallel pass writes only per-cell slots from a frozen snapshot of the
  previous pass, so a pass is a pure function from grid to grid, and
  `UpdateGrid` is the composition of its four phases in program order.
-/

namespace FluidSim

/-- Constant `g = -9.81f` of `UpdateGrid` (gravity along the y axis). -/
def gravY : ℚ := -(981/100)

/-- Constant `nu = 1.3f` of `UpdateGrid` (viscosity coefficient). -/
def viscNu : ℚ := 13/10

/-- Constant `radius = 1.0f` of `UpdateGrid` (particle radius for walls). -/
def partRadius : ℚ := 1

/-- Constant `h = 1.2f` of `UpdateGrid` (interaction radius). -/
def hRad : ℚ := 6/5

/-- Constant `stiffness = 0.6f` of `UpdateGrid`. -/
def stiffness : ℚ := 3/5

/-- Constant `wallStiffness = 2.0f` of `UpdateGrid`. -/
def wallStiffness : ℚ := 2

/-- Constant `wallDamping = 0.8f` of `UpdateGrid`. -/
def wallDamping : ℚ := 4/5

/-- Constant `epsilon = 1e-4f` of `UpdateGrid`. -/
def epsWall : ℚ := 1/10000

/-- Domain bound `minX = 0.0f`. -/
def minX : ℚ := 0

/-- Domain bound `maxX = 20.0f`. -/
def maxX : ℚ := 20

/-- Domain bound `minY = 0.0f`. -/
def minY : ℚ := 0

/-- Domain bound `maxY = 60.0f`. -/
def maxY : ℚ := 60

/-- Domain bound `minZ = 0.0f`. -/
def minZ : ℚ := 0

/-- Domain bound `maxZ = 20.0f`. -/
def maxZ : ℚ := 20

/-- Struct `Vertex` of grid.hpp: a position and a colour. -/
structure Vertex where
  x : ℚ
  y : ℚ
  z : ℚ
  r : ℚ
  g : ℚ
  b : ℚ
deriving DecidableEq, Inhabited

/-- Struct `Grille` of grid.hpp: the flat particle-record vector plus the
cubic per-axis scalar fields.  (The `pressure` field exists in the source but
is never written or read by the simulation code.) -/
structure Grille where
  nx : ℕ
  ny : ℕ
  nz : ℕ
  vertices : List Vertex
  vx : ℕ → ℕ → ℕ → ℚ
  vy : ℕ → ℕ → ℕ → ℚ
  vz : ℕ → ℕ → ℕ → ℚ
  ax : ℕ → ℕ → ℕ → ℚ
  ay : ℕ → ℕ → ℕ → ℚ
  az : ℕ → ℕ → ℕ → ℚ
  pressure : ℕ → ℕ → ℕ → ℚ
  div : ℕ → ℕ → ℕ → ℚ

/-- Function `idx3` of grid.hpp: the row-major linear index. -/
def idx3 (i j k ny nz : ℕ) : ℕ := i * (ny * nz) + j * nz + k

/-- The `Grille(nx,ny,nz)` constructor zero-fills every cubic scalar field;
`CreateGrid` then installs the vertex list. -/
def mkGrille (nx ny nz : ℕ) (vs : List Vertex) : Grille :=
  { nx := nx, ny := ny, nz := nz, vertices := vs
    vx := fun _ _ _ => 0, vy := fun _ _ _ => 0, vz := fun _ _ _ => 0
    ax := fun _ _ _ => 0, ay := fun _ _ _ => 0, az := fun _ _ _ => 0
    pressure := fun _ _ _ => 0, div := fun _ _ _ => 0 }

/-- Function `CreateGrid` of grid.cpp.  The source loop writes, for every
lattice triple (i,j,k), the record `{ i*scale, j*scale + 5, k*scale }`
(aggregate initialisation zero-fills the colour fields) at linear index
`idx3 i j k ny nz`.  Since `idx3` maps the lattice box bijectively onto
`[0, nx*ny*nz)`, the resulting vector is equivalently given entry-by-entry by
decoding the linear index; the theorem `createGrid_records` below recovers
the per-(i,j,k) form written by the source loop. -/
def createGrid (rx ry rz : ℕ) (scale : ℚ) : Grille :=
  mkGrille rx ry rz (List.ofFn (fun t : Fin (rx * ry * rz) =>
    let i : ℕ := t.1 / (ry * rz)
    let j : ℕ := t.1 / rz % ry
    let k : ℕ := t.1 % rz
    { x := i * scale, y := j * scale + 5, z := k * scale
      r := 0, g := 0, b := 0 }))

/-- Read the particle record of lattice cell (i,j,k): `grid.vertices[idx3 …]`. -/
def vert (g : Grille) (i j k : ℕ) : Vertex :=
  g.vertices.getD (idx3 i j k g.ny g.nz) default

/-- Rewrite every entry of the vertex vector in place; entry `id` becomes
`f id old`.  This is the functional form of a parallel loop in which cell
(i,j,k) writes only `vertices[idx3 i j k]`. -/
def writeVerts (vs : List Vertex) (f : ℕ → Vertex → Vertex) : List Vertex :=
  List.ofFn (fun t : Fin vs.length => f t.1 (vs.get t))

/-- Recover the lattice triple (i,j,k) of a linear index, the inverse of
`idx3` on the lattice box (each parallel vertex write at linear index `id`
is the write of the unique cell (i,j,k) with `idx3 i j k ny nz = id`). -/
def cellOf (g : Grille) (id : ℕ) : ℕ × ℕ × ℕ :=
  (id / (g.ny * g.nz), id / g.nz % g.ny, id % g.nz)

/-- Phase 0 of `UpdateGrid`: reset every cell's acceleration to (0, g, 0). -/
def phase0 (g : Grille) : Grille :=
  { g with
    ax := fun i j k => if i < g.nx ∧ j < g.ny ∧ k < g.nz then 0 else g.ax i j k
    ay := fun i j k => if i < g.nx ∧ j < g.ny ∧ k < g.nz then gravY else g.ay i j k
    az := fun i j k => if i < g.nx ∧ j < g.ny ∧ k < g.nz then 0 else g.az i j k }

/-- Squared distance `dx*dx + dy*dy + dz*dz` with `d = v - n`, as computed at
lines 81–84 of grid.cpp. -/
def sqDist (v n : Vertex) : ℚ :=
  (v.x - n.x) * (v.x - n.x) + (v.y - n.y) * (v.y - n.y) + (v.z - n.z) * (v.z - n.z)

/-- Density contribution of one neighbour `n` to subject `v` (the body of the
inner loop of Phase 1): `q*q` with `q = 1 - r/h` when `0 < r² < h²`, else 0. -/
def densPair (rsqrt : ℚ → ℚ) (v n : Vertex) : ℚ :=
  let r2 := sqDist v n
  if 0 < r2 ∧ r2 < hRad * hRad then
    let r := rsqrt r2
    let q := 1 - r / hRad
    q * q
  else 0

/-- Density of cell (i,j,k): the Phase 1 accumulation over all other cells
(the source accumulates in loop order; rational addition is commutative and
associative, so the accumulation equals this iterated sum). -/
def densityAt (rsqrt : ℚ → ℚ) (g : Grille) (i j k : ℕ) : ℚ :=
  ∑ ii ∈ Finset.range g.nx, ∑ jj ∈ Finset.range g.ny, ∑ kk ∈ Finset.range g.nz,
    if ii = i ∧ jj = j ∧ kk = k then 0
    else densPair rsqrt (vert g i j k) (vert g ii jj kk)

/-- Phase 1 of `UpdateGrid`: write each cell's density into `div`. -/
def phase1 (rsqrt : ℚ → ℚ) (g : Grille) : Grille :=
  { g with
    div := fun i j k =>
      if i < g.nx ∧ j < g.ny ∧ k < g.nz then densityAt rsqrt g i j k
      else g.div i j k }

/-- Pressure `P = stiffness * (rho - restDensity)` (lines 108 and 130). -/
def pressureOf (rest rho : ℚ) : ℚ := stiffness * (rho - rest)

/-- Value `restDensity = (maxX-minX)*(maxY-minY)*(maxZ-minZ) / N` recomputed
at the top of every `UpdateGrid` call (line 50). -/
def restDensityOf (N : ℕ) : ℚ :=
  (maxX - minX) * (maxY - minY) * (maxZ - minZ) / (N : ℚ)

/-- Pressure-force contribution of neighbour `B` to subject `A` (lines
122–141): zero when the pair is skipped (`r ≤ 0` or `r > h`), otherwise
`fPress * n` with `fPress = -0.5*(P(A)+P(B))*q` and `n = d/r`. -/
def pressContrib (rsqrt : ℚ → ℚ) (rest : ℚ) (A B : Vertex) (rhoA rhoB : ℚ) :
    ℚ × ℚ × ℚ :=
  let dx := B.x - A.x
  let dy := B.y - A.y
  let dz := B.z - A.z
  let r := rsqrt (sqDist B A)
  if r ≤ 0 ∨ hRad < r then (0, 0, 0)
  else
    let q := 1 - r / hRad
    let fPress := -(1/2) * (pressureOf rest rhoA + pressureOf rest rhoB) * q
    (fPress * (dx / r), fPress * (dy / r), fPress * (dz / r))

/-- Viscosity contribution of neighbour `B` to subject `A` (lines 144–150):
`nu * (v(B) - v(A)) * q` componentwise, under the same pair gate. -/
def viscContrib (rsqrt : ℚ → ℚ) (A B : Vertex) (vA vB : ℚ × ℚ × ℚ) :
    ℚ × ℚ × ℚ :=
  let r := rsqrt (sqDist B A)
  if r ≤ 0 ∨ hRad < r then (0, 0, 0)
  else
    let q := 1 - r / hRad
    (viscNu * (vB.1 - vA.1) * q, viscNu * (vB.2.1 - vA.2.1) * q,
      viscNu * (vB.2.2 - vA.2.2) * q)

/-- Wall penalty acceleration on the x axis (lines 156–159): two independent
conditionals, one per wall. -/
def wallAccelX (A : Vertex) : ℚ :=
  (if A.x - partRadius < minX then wallStiffness * (minX - (A.x - partRadius)) else 0)
    - (if maxX < A.x + partRadius then wallStiffness * ((A.x + partRadius) - maxX) else 0)

/-- Wall penalty acceleration on the y axis (lines 160–163). -/
def wallAccelY (A : Vertex) : ℚ :=
  (if A.y - partRadius < minY then wallStiffness * (minY - (A.y - partRadius)) else 0)
    - (if maxY < A.y + partRadius then wallStiffness * ((A.y + partRadius) - maxY) else 0)

/-- Wall penalty acceleration on the z axis (lines 164–167). -/
def wallAccelZ (A : Vertex) : ℚ :=
  (if A.z - partRadius < minZ then wallStiffness * (minZ - (A.z - partRadius)) else 0)
    - (if maxZ < A.z + partRadius then wallStiffness * ((A.z + partRadius) - maxZ) else 0)

/-- Acceleration of cell (i,j,k) after Phase 2: the Phase-0 base value plus
all pairwise pressure and viscosity contributions plus the wall penalties. -/
def forceAccelAt (rsqrt : ℚ → ℚ) (rest : ℚ) (g : Grille) (i j k : ℕ) :
    ℚ × ℚ × ℚ :=
  let A := vert g i j k
  let nb : ℚ × ℚ × ℚ :=
    ∑ ii ∈ Finset.range g.nx, ∑ jj ∈ Finset.range g.ny, ∑ kk ∈ Finset.range g.nz,
      if ii = i ∧ jj = j ∧ kk = k then (0, 0, 0)
      else
        pressContrib rsqrt rest A (vert g ii jj kk) (g.div i j k) (g.div ii jj kk)
          + viscContrib rsqrt A (vert g ii jj kk)
              (g.vx i j k, g.vy i j k, g.vz i j k)
              (g.vx ii jj kk, g.vy ii jj kk, g.vz ii jj kk)
  (g.ax i j k + nb.1 + wallAccelX A,
   g.ay i j k + nb.2.1 + wallAccelY A,
   g.az i j k + nb.2.2 + wallAccelZ A)

/-- Semantics of `std::clamp(v, lo, hi)`. -/
def rclamp (v lo hi : ℚ) : ℚ := if v < lo then lo else if hi < v then hi else v

/-- Blue→red colour gradient from a normalised scalar in [0,1]:
`(t, 0.2*(1-t), 1-t)`. -/
def gradColor (t : ℚ) : ℚ × ℚ × ℚ := (t, (1/5) * (1 - t), 1 - t)

/-- Pressure-mode colour of a particle (lines 176–181):
`Pnorm = clamp((PA - (-restDensity)) / (restDensity*2), 0, 1)` fed to the
gradient. -/
def pressColor (rest PA : ℚ) : ℚ × ℚ × ℚ :=
  gradColor (rclamp ((PA - (-rest)) / (rest * 2)) 0 1)

/-- Colour write of Phase 2 for the vertex at linear index `id` (lines
174–191): in pressure mode write the pressure colour, otherwise (when speed
mode is off) force the default blue, and when only speed mode is on leave
the colour untouched. -/
def phase2VertF (rest : ℚ) (g : Grille) (pressureMode speedMode : Bool) :
    ℕ → Vertex → Vertex := fun id v =>
  if id < g.nx * g.ny * g.nz then
    let c3 := cellOf g id
    let PA := pressureOf rest (g.div c3.1 c3.2.1 c3.2.2)
    if pressureMode then
      let c := pressColor rest PA
      { v with r := c.1, g := c.2.1, b := c.2.2 }
    else if !speedMode then { v with r := 0, g := 0, b := 1 }
    else v
  else v

/-- Phase 2 of `UpdateGrid`: store accelerations and write the colours. -/
def phase2 (rsqrt : ℚ → ℚ) (rest : ℚ) (g : Grille)
    (pressureMode speedMode : Bool) : Grille :=
  { g with
    ax := fun i j k =>
      if i < g.nx ∧ j < g.ny ∧ k < g.nz then (forceAccelAt rsqrt rest g i j k).1
      else g.ax i j k
    ay := fun i j k =>
      if i < g.nx ∧ j < g.ny ∧ k < g.nz then (forceAccelAt rsqrt rest g i j k).2.1
      else g.ay i j k
    az := fun i j k =>
      if i < g.nx ∧ j < g.ny ∧ k < g.nz then (forceAccelAt rsqrt rest g i j k).2.2
      else g.az i j k
    vertices := writeVerts g.vertices (phase2VertF rest g pressureMode speedMode) }

/-- Per-axis hard boundary handling of Phase 3 (lines 220–242): an
if / else-if clamp of the position with damped velocity reflection. -/
def axisClamp (pos vel lo hi : ℚ) : ℚ × ℚ :=
  if pos < lo + epsWall then (lo + epsWall, -vel * wallDamping)
  else if hi - epsWall < pos then (hi - epsWall, -vel * wallDamping)
  else (pos, vel)

/-- Per-cell body of Phase 3: symplectic-Euler update, per-axis hard clamp,
then the optional speed colour computed from the post-clamp velocity.
Returns the new vertex and the three new velocity components. -/
def integrateCell (rsqrt : ℚ → ℚ) (dt : ℚ) (speedMode : Bool) (v : Vertex)
    (vx0 vy0 vz0 ax0 ay0 az0 : ℚ) : Vertex × ℚ × ℚ × ℚ :=
  let vx1 := vx0 + ax0 * dt
  let vy1 := vy0 + ay0 * dt
  let vz1 := vz0 + az0 * dt
  let cx := axisClamp (v.x + vx1 * dt) vx1 minX maxX
  let cy := axisClamp (v.y + vy1 * dt) vy1 minY maxY
  let cz := axisClamp (v.z + vz1 * dt) vz1 minZ maxZ
  let v1 : Vertex := { v with x := cx.1, y := cy.1, z := cz.1 }
  let v2 : Vertex :=
    if speedMode then
      let vn := min (rsqrt (cx.2 * cx.2 + cy.2 * cy.2 + cz.2 * cz.2) / 15) 1
      { v1 with r := (gradColor vn).1, g := (gradColor vn).2.1, b := (gradColor vn).2.2 }
    else v1
  (v2, cx.2, cy.2, cz.2)

/-- Vertex write of Phase 3 for the linear index `id`: the integrated vertex
of the corresponding cell. -/
def phase3VertF (rsqrt : ℚ → ℚ) (dt : ℚ) (g : Grille) (speedMode : Bool) :
    ℕ → Vertex → Vertex := fun id v =>
  if id < g.nx * g.ny * g.nz then
    let c3 := cellOf g id
    (integrateCell rsqrt dt speedMode v
      (g.vx c3.1 c3.2.1 c3.2.2) (g.vy c3.1 c3.2.1 c3.2.2) (g.vz c3.1 c3.2.1 c3.2.2)
      (g.ax c3.1 c3.2.1 c3.2.2) (g.ay c3.1 c3.2.1 c3.2.2) (g.az c3.1 c3.2.1 c3.2.2)).1
  else v

/-- Phase 3 of `UpdateGrid`: integrate every cell. -/
def phase3 (rsqrt : ℚ → ℚ) (dt : ℚ) (g : Grille) (speedMode : Bool) : Grille :=
  { g with
    vertices := writeVerts g.vertices (phase3VertF rsqrt dt g speedMode)
    vx := fun i j k =>
      if i < g.nx ∧ j < g.ny ∧ k < g.nz then
        (integrateCell rsqrt dt speedMode (vert g i j k) (g.vx i j k) (g.vy i j k)
          (g.vz i j k) (g.ax i j k) (g.ay i j k) (g.az i j k)).2.1
      else g.vx i j k
    vy := fun i j k =>
      if i < g.nx ∧ j < g.ny ∧ k < g.nz then
        (integrateCell rsqrt dt speedMode (vert g i j k) (g.vx i j k) (g.vy i j k)
          (g.vz i j k) (g.ax i j k) (g.ay i j k) (g.az i j k)).2.2.1
      else g.vy i j k
    vz := fun i j k =>
      if i < g.nx ∧ j < g.ny ∧ k < g.nz then
        (integrateCell rsqrt dt speedMode (vert g i j k) (g.vx i j k) (g.vy i j k)
          (g.vz i j k) (g.ax i j k) (g.ay i j k) (g.az i j k)).2.2.2
      else g.vz i j k }

/-- Function `UpdateGrid` of grid.cpp: compute `restDensity`, then run the
four phases in program order (each `omp for` is a full barrier). -/
def updateGrid (rsqrt : ℚ → ℚ) (dt : ℚ) (g : Grille)
    (pressureMode speedMode : Bool) : Grille :=
  let rest := restDensityOf (g.nx * g.ny * g.nz)
  phase3 rsqrt dt (phase2 rsqrt rest (phase1 rsqrt (phase0 g)) pressureMode speedMode)
    speedMode

/-- Function `ComputeAverageVelocity` of grid.cpp: sum each velocity component
over all cells and divide by the cell count.  It takes the grid by constant
reference and only reads it, which the embedding reflects by being a pure
function; the returned `Vertex` aggregate zero-fills its colour fields. -/
def computeAverageVelocity (g : Grille) : Vertex :=
  let count : ℕ := g.nx * g.ny * g.nz
  let tx := ∑ i ∈ Finset.range g.nx, ∑ j ∈ Finset.range g.ny, ∑ k ∈ Finset.range g.nz, g.vx i j k
  let ty := ∑ i ∈ Finset.range g.nx, ∑ j ∈ Finset.range g.ny, ∑ k ∈ Finset.range g.nz, g.vy i j k
  let tz := ∑ i ∈ Finset.range g.nx, ∑ j ∈ Finset.range g.ny, ∑ k ∈ Finset.range g.nz, g.vz i j k
  { x := tx / (count : ℚ), y := ty / (count : ℚ), z := tz / (count : ℚ)
    r := 0, g := 0, b := 0 }

/-! Index arithmetic: `idx3` maps the lattice box injectively into
`[0, nx*ny*nz)` and `cellOf` is its left inverse there. -/

lemma lincomb_lt {j k ny nz : ℕ} (hj : j < ny) (hk : k < nz) :
    j * nz + k < ny * nz := by
  calc j * nz + k < (j + 1) * nz := by nlinarith
    _ ≤ ny * nz := Nat.mul_le_mul_right _ hj

lemma idx3_lt {i j k nx ny nz : ℕ} (hi : i < nx) (hj : j < ny) (hk : k < nz) :
    idx3 i j k ny nz < nx * ny * nz := by
  have h1 : j * nz + k < ny * nz := lincomb_lt hj hk
  calc idx3 i j k ny nz = i * (ny * nz) + (j * nz + k) := by
        unfold idx3; ring
    _ < i * (ny * nz) + ny * nz := Nat.add_lt_add_left h1 _
    _ = (i + 1) * (ny * nz) := by ring
    _ ≤ nx * (ny * nz) := Nat.mul_le_mul_right _ hi
    _ = nx * ny * nz := by ring

lemma idx3_div₁ {j k ny nz : ℕ} (i : ℕ) (hj : j < ny) (hk : k < nz) :
    idx3 i j k ny nz / (ny * nz) = i := by
  have h1 : j * nz + k < ny * nz := lincomb_lt hj hk
  have hpos : 0 < ny * nz :=
    Nat.mul_pos (lt_of_le_of_lt (Nat.zero_le j) hj) (lt_of_le_of_lt (Nat.zero_le k) hk)
  have h2 : idx3 i j k ny nz = j * nz + k + (ny * nz) * i := by unfold idx3; ring
  rw [h2, Nat.add_mul_div_left _ _ hpos, Nat.div_eq_of_lt h1, Nat.zero_add]

lemma idx3_div₂ {j k ny nz : ℕ} (i : ℕ) (hj : j < ny) (hk : k < nz) :
    idx3 i j k ny nz / nz % ny = j := by
  have hnz : 0 < nz := lt_of_le_of_lt (Nat.zero_le k) hk
  have h2 : idx3 i j k ny nz = k + (i * ny + j) * nz := by unfold idx3; ring
  rw [h2, Nat.add_mul_div_right _ _ hnz, Nat.div_eq_of_lt hk, Nat.zero_add]
  rw [Nat.add_comm (i * ny) j, Nat.add_mul_mod_self_right, Nat.mod_eq_of_lt hj]

lemma idx3_mod {k nz : ℕ} (i j ny : ℕ) (hk : k < nz) :
    idx3 i j k ny nz % nz = k := by
  have h2 : idx3 i j k ny nz = k + (i * ny + j) * nz := by unfold idx3; ring
  rw [h2, Nat.add_mul_mod_self_right, Nat.mod_eq_of_lt hk]

lemma cellOf_idx3 (g : Grille) {i j k : ℕ} (hj : j < g.ny) (hk : k < g.nz) :
    cellOf g (idx3 i j k g.ny g.nz) = (i, j, k) := by
  unfold cellOf
  rw [idx3_div₁ i hj hk, idx3_div₂ i hj hk, idx3_mod i j g.ny hk]

lemma length_writeVerts (vs : List Vertex) (f : ℕ → Vertex → Vertex) :
    (writeVerts vs f).length = vs.length := by
  simp [writeVerts]

lemma getD_writeVerts (vs : List Vertex) (f : ℕ → Vertex → Vertex) (n : ℕ)
    (hn : n < vs.length) :
    (writeVerts vs f).getD n default = f n (vs.get ⟨n, hn⟩) := by
  have hn' : n < (writeVerts vs f).length := by rw [length_writeVerts]; exact hn
  rw [List.getD_eq_getElem _ _ hn']
  simp [writeVerts]

/-! Access lemmas for the individual passes. -/

lemma vert_of_writeVerts (g g' : Grille) (f : ℕ → Vertex → Vertex)
    (hny : g'.ny = g.ny) (hnz : g'.nz = g.nz)
    (hvs : g'.vertices = writeVerts g.vertices f)
    (hlen : g.vertices.length = g.nx * g.ny * g.nz)
    {i j k : ℕ} (hi : i < g.nx) (hj : j < g.ny) (hk : k < g.nz) :
    vert g' i j k = f (idx3 i j k g.ny g.nz) (vert g i j k) := by
  have hN : idx3 i j k g.ny g.nz < g.nx * g.ny * g.nz := idx3_lt hi hj hk
  have hidx : idx3 i j k g.ny g.nz < g.vertices.length := hlen ▸ hN
  have hget : g.vertices.get ⟨idx3 i j k g.ny g.nz, hidx⟩ = vert g i j k := by
    rw [vert, List.getD_eq_getElem _ _ hidx]; rfl
  rw [vert, hny, hnz, hvs, getD_writeVerts _ _ _ hidx, hget]

lemma div_phase1 (rsqrt : ℚ → ℚ) (g : Grille) {i j k : ℕ}
    (hi : i < g.nx) (hj : j < g.ny) (hk : k < g.nz) :
    (phase1 rsqrt g).div i j k = densityAt rsqrt g i j k := by
  simp [phase1, hi, hj, hk]

lemma ax_phase2 (rsqrt : ℚ → ℚ) (rest : ℚ) (g : Grille) (pm sm : Bool)
    {i j k : ℕ} (hi : i < g.nx) (hj : j < g.ny) (hk : k < g.nz) :
    (phase2 rsqrt rest g pm sm).ax i j k = (forceAccelAt rsqrt rest g i j k).1 := by
  simp [phase2, hi, hj, hk]

lemma ay_phase2 (rsqrt : ℚ → ℚ) (rest : ℚ) (g : Grille) (pm sm : Bool)
    {i j k : ℕ} (hi : i < g.nx) (hj : j < g.ny) (hk : k < g.nz) :
    (phase2 rsqrt rest g pm sm).ay i j k = (forceAccelAt rsqrt rest g i j k).2.1 := by
  simp [phase2, hi, hj, hk]

lemma az_phase2 (rsqrt : ℚ → ℚ) (rest : ℚ) (g : Grille) (pm sm : Bool)
    {i j k : ℕ} (hi : i < g.nx) (hj : j < g.ny) (hk : k < g.nz) :
    (phase2 rsqrt rest g pm sm).az i j k = (forceAccelAt rsqrt rest g i j k).2.2 := by
  simp [phase2, hi, hj, hk]

lemma vert_phase2 (rsqrt : ℚ → ℚ) (rest : ℚ) (g : Grille) (pm sm : Bool)
    (hlen : g.vertices.length = g.nx * g.ny * g.nz)
    {i j k : ℕ} (hi : i < g.nx) (hj : j < g.ny) (hk : k < g.nz) :
    vert (phase2 rsqrt rest g pm sm) i j k =
      (if pm then
        { vert g i j k with
          r := (pressColor rest (pressureOf rest (g.div i j k))).1
          g := (pressColor rest (pressureOf rest (g.div i j k))).2.1
          b := (pressColor rest (pressureOf rest (g.div i j k))).2.2 }
      else if !sm then { vert g i j k with r := 0, g := 0, b := 1 }
      else vert g i j k) := by
  have hN : idx3 i j k g.ny g.nz < g.nx * g.ny * g.nz := idx3_lt hi hj hk
  rw [vert_of_writeVerts g (phase2 rsqrt rest g pm sm) (phase2VertF rest g pm sm)
    rfl rfl rfl hlen hi hj hk]
  simp only [phase2VertF, hN, if_true, cellOf_idx3 g hj hk]

lemma vert_phase3 (rsqrt : ℚ → ℚ) (dt : ℚ) (g : Grille) (sm : Bool)
    (hlen : g.vertices.length = g.nx * g.ny * g.nz)
    {i j k : ℕ} (hi : i < g.nx) (hj : j < g.ny) (hk : k < g.nz) :
    vert (phase3 rsqrt dt g sm) i j k =
      (integrateCell rsqrt dt sm (vert g i j k) (g.vx i j k) (g.vy i j k)
        (g.vz i j k) (g.ax i j k) (g.ay i j k) (g.az i j k)).1 := by
  have hN : idx3 i j k g.ny g.nz < g.nx * g.ny * g.nz := idx3_lt hi hj hk
  rw [vert_of_writeVerts g (phase3 rsqrt dt g sm) (phase3VertF rsqrt dt g sm)
    rfl rfl rfl hlen hi hj hk]
  simp only [phase3VertF, hN, if_true, cellOf_idx3 g hj hk]

lemma vx_phase3 (rsqrt : ℚ → ℚ) (dt : ℚ) (g : Grille) (sm : Bool)
    {i j k : ℕ} (hi : i < g.nx) (hj : j < g.ny) (hk : k < g.nz) :
    (phase3 rsqrt dt g sm).vx i j k =
      (integrateCell rsqrt dt sm (vert g i j k) (g.vx i j k) (g.vy i j k)
        (g.vz i j k) (g.ax i j k) (g.ay i j k) (g.az i j k)).2.1 := by
  simp [phase3, hi, hj, hk]

lemma vy_phase3 (rsqrt : ℚ → ℚ) (dt : ℚ) (g : Grille) (sm : Bool)
    {i j k : ℕ} (hi : i < g.nx) (hj : j < g.ny) (hk : k < g.nz) :
    (phase3 rsqrt dt g sm).vy i j k =
      (integrateCell rsqrt dt sm (vert g i j k) (g.vx i j k) (g.vy i j k)
        (g.vz i j k) (g.ax i j k) (g.ay i j k) (g.az i j k)).2.2.1 := by
  simp [phase3, hi, hj, hk]

lemma vz_phase3 (rsqrt : ℚ → ℚ) (dt : ℚ) (g : Grille) (sm : Bool)
    {i j k : ℕ} (hi : i < g.nx) (hj : j < g.ny) (hk : k < g.nz) :
    (phase3 rsqrt dt g sm).vz i j k =
      (integrateCell rsqrt dt sm (vert g i j k) (g.vx i j k) (g.vy i j k)
        (g.vz i j k) (g.ax i j k) (g.ay i j k) (g.az i j k)).2.2.2 := by
  simp [phase3, hi, hj, hk]

lemma sqDist_comm (A B : Vertex) : sqDist A B = sqDist B A := by
  unfold sqDist; ring

lemma createGrid_nx (rx ry rz : ℕ) (s : ℚ) : (createGrid rx ry rz s).nx = rx := rfl

lemma createGrid_ny (rx ry rz : ℕ) (s : ℚ) : (createGrid rx ry rz s).ny = ry := rfl

lemma createGrid_nz (rx ry rz : ℕ) (s : ℚ) : (createGrid rx ry rz s).nz = rz := rfl

lemma vert_phase0 (g : Grille) (i j k : ℕ) : vert (phase0 g) i j k = vert g i j k := rfl

/-- Phases 2 and 3 never write the density field, and Phase 0 never moves a
vertex, so the density of the returned grid is exactly the Phase 1 value
computed from the initial positions. -/
lemma div_updateGrid (rsqrt : ℚ → ℚ) (dt : ℚ) (g : Grille) (pm sm : Bool)
    {i j k : ℕ} (hi : i < g.nx) (hj : j < g.ny) (hk : k < g.nz) :
    (updateGrid rsqrt dt g pm sm).div i j k = densityAt rsqrt g i j k := by
  show (phase1 rsqrt (phase0 g)).div i j k = densityAt rsqrt g i j k
  rw [div_phase1 rsqrt (phase0 g) hi hj hk]
  rfl

/-- C4: for all positive nx, ny, nz and positive scale, `CreateGrid` produces
exactly nx·ny·nz particle records, and the record at linear index
`i·(ny·nz) + j·nz + k` has position (i·scale, j·scale + 5, k·scale). -/
theorem createGrid_records (nx ny nz : ℕ) (scale : ℚ)
    (hx : 0 < nx) (hy : 0 < ny) (hz : 0 < nz) (hs : 0 < scale)
    {i j k : ℕ} (hi : i < nx) (hj : j < ny) (hk : k < nz) :
    (createGrid nx ny nz scale).vertices.length = nx * ny * nz ∧
    (createGrid nx ny nz scale).vertices.getD (idx3 i j k ny nz) default =
      { x := (i : ℚ) * scale, y := (j : ℚ) * scale + 5, z := (k : ℚ) * scale
        r := 0, g := 0, b := 0 } := by
  have hlen : (createGrid nx ny nz scale).vertices.length = nx * ny * nz := by
    simp [createGrid, mkGrille]
  refine ⟨hlen, ?_⟩
  have hidx : idx3 i j k ny nz < nx * ny * nz := idx3_lt hi hj hk
  rw [List.getD_eq_getElem _ _ (by rw [hlen]; exact hidx)]
  simp only [createGrid, mkGrille, List.getElem_ofFn]
  simp only [idx3_div₁ i hj hk, idx3_div₂ i hj hk, idx3_mod i j ny hk]

/-- C4 witness: `CreateGrid 2 2 2 1` has 8 records and places the particle of
lattice coordinate (1,1,1) at position (1, 6, 1). -/
theorem createGrid_records_witness :
    (createGrid 2 2 2 1).vertices.length = 2 * 2 * 2 ∧
    (createGrid 2 2 2 1).vertices.getD (idx3 1 1 1 2 2) default =
      { x := 1, y := 6, z := 1, r := 0, g := 0, b := 0 } := by
  have h := createGrid_records 2 2 2 1 (by norm_num) (by norm_num) (by norm_num)
    (by norm_num) (i := 1) (j := 1) (k := 1) (by norm_num) (by norm_num) (by norm_num)
  refine ⟨h.1, ?_⟩
  rw [h.2]
  simp only [Vertex.mk.injEq]
  norm_num

/-- C9: every particle record returned by `CreateGrid` has its colour
initialised to (0,0,0): the aggregate initialisation writes only the position
components and zero-fills r, g, b. -/
theorem createGrid_colors_zero (nx ny nz : ℕ) (scale : ℚ)
    (hx : 0 < nx) (hy : 0 < ny) (hz : 0 < nz) (hs : 0 < scale) :
    ∀ v ∈ (createGrid nx ny nz scale).vertices, v.r = 0 ∧ v.g = 0 ∧ v.b = 0 := by
  intro v hv
  simp only [createGrid, mkGrille, List.mem_ofFn, Set.mem_range] at hv
  obtain ⟨t, ht⟩ := hv
  rw [← ht]
  exact ⟨rfl, rfl, rfl⟩

/-- C9 witness: the single record of `CreateGrid 1 1 1 1` has colour (0,0,0). -/
theorem createGrid_colors_zero_witness :
    (⟨0, 5, 0, 0, 0, 0⟩ : Vertex).r = 0 ∧ (⟨0, 5, 0, 0, 0, 0⟩ : Vertex).g = 0 ∧
    (⟨0, 5, 0, 0, 0, 0⟩ : Vertex).b = 0 :=
  createGrid_colors_zero 1 1 1 1 (by norm_num) (by norm_num) (by norm_num) (by norm_num)
    ⟨0, 5, 0, 0, 0, 0⟩ (by
      simp only [createGrid, mkGrille, List.mem_ofFn, Set.mem_range]
      exact ⟨0, by simp only [Vertex.mk.injEq]; norm_num⟩)

/-- C8: `ComputeAverageVelocity` on a freshly created state returns exactly
(0,0,0).  The function takes the grid by constant reference and the embedding
renders it as a pure function, so the call leaves the state unmodified by
construction. -/
theorem averageVelocity_fresh (nx ny nz : ℕ) (scale : ℚ)
    (hx : 0 < nx) (hy : 0 < ny) (hz : 0 < nz) (hs : 0 < scale) :
    computeAverageVelocity (createGrid nx ny nz scale) =
      { x := 0, y := 0, z := 0, r := 0, g := 0, b := 0 } := by
  simp [computeAverageVelocity, createGrid, mkGrille]

/-- C8 witness: the average velocity of `CreateGrid 2 2 2 1` is the zero
vector. -/
theorem averageVelocity_fresh_witness :
    computeAverageVelocity (createGrid 2 2 2 1) =
      { x := 0, y := 0, z := 0, r := 0, g := 0, b := 0 } :=
  averageVelocity_fresh 2 2 2 1 (by norm_num) (by norm_num) (by norm_num) (by norm_num)

/-- C3: for any two particles at distance 0 < r ≤ h, the pressure-force
acceleration contribution computed with A as subject (from B) and the one
computed with B as subject (from A), from the same density snapshot
(rhoA, rhoB), sum to the zero vector. -/
theorem pressContrib_antisym (rsqrt : ℚ → ℚ) (rest : ℚ) (A B : Vertex)
    (rhoA rhoB : ℚ) (hpos : 0 < rsqrt (sqDist B A))
    (hle : rsqrt (sqDist B A) ≤ hRad) :
    pressContrib rsqrt rest A B rhoA rhoB + pressContrib rsqrt rest B A rhoB rhoA
      = (0, 0, 0) := by
  have hc : ¬(rsqrt (sqDist B A) ≤ 0 ∨ hRad < rsqrt (sqDist B A)) := by
    push_neg
    exact ⟨hpos, hle⟩
  have hc' : ¬(rsqrt (sqDist A B) ≤ 0 ∨ hRad < rsqrt (sqDist A B)) := by
    rw [sqDist_comm A B]
    exact hc
  simp only [pressContrib, if_neg hc, if_neg hc', sqDist_comm A B,
    Prod.mk_add_mk, Prod.mk.injEq]
  refine ⟨by ring, by ring, by ring⟩

/-- C3 witness: two particles one unit apart on the x axis, with a
square-root routine returning the true distance 1 on that input. -/
theorem pressContrib_antisym_witness :
    pressContrib (fun _ => 1) 0 ⟨0, 0, 0, 0, 0, 0⟩ ⟨1, 0, 0, 0, 0, 0⟩ 0 0
      + pressContrib (fun _ => 1) 0 ⟨1, 0, 0, 0, 0, 0⟩ ⟨0, 0, 0, 0, 0, 0⟩ 0 0
      = (0, 0, 0) :=
  pressContrib_antisym (fun _ => 1) 0 ⟨0, 0, 0, 0, 0, 0⟩ ⟨1, 0, 0, 0, 0, 0⟩ 0 0
    (by norm_num) (by norm_num [hRad])

/-- C2: the density the step leaves on particle (i,j,k) is the sum, over all
other lattice cells, of (1 - r/h)² for the pairs whose squared distance
satisfies 0 < r² < h², and nothing else; and the density pass leaves the
particle records themselves untouched (it writes only the density field). -/
theorem density_pass_sum (rsqrt : ℚ → ℚ) (dt : ℚ) (g : Grille) (pm sm : Bool)
    {i j k : ℕ} (hi : i < g.nx) (hj : j < g.ny) (hk : k < g.nz) :
    (updateGrid rsqrt dt g pm sm).div i j k =
      ∑ ii ∈ Finset.range g.nx, ∑ jj ∈ Finset.range g.ny, ∑ kk ∈ Finset.range g.nz,
        if ii = i ∧ jj = j ∧ kk = k then 0
        else
          if 0 < sqDist (vert g i j k) (vert g ii jj kk) ∧
              sqDist (vert g i j k) (vert g ii jj kk) < hRad * hRad then
            (1 - rsqrt (sqDist (vert g i j k) (vert g ii jj kk)) / hRad) *
              (1 - rsqrt (sqDist (vert g i j k) (vert g ii jj kk)) / hRad)
          else 0 := by
  rw [div_updateGrid rsqrt dt g pm sm hi hj hk]
  rfl

/-- C2 witness: a 2×1×1 grid with the two particles one unit apart; the
density of cell (0,0,0) is the single-pair sum. -/
theorem density_pass_sum_witness :
    (updateGrid (fun _ => 1) 1 (createGrid 2 1 1 1) false false).div 0 0 0 =
      ∑ ii ∈ Finset.range 2, ∑ jj ∈ Finset.range 1, ∑ kk ∈ Finset.range 1,
        if ii = 0 ∧ jj = 0 ∧ kk = 0 then 0
        else
          if 0 < sqDist (vert (createGrid 2 1 1 1) 0 0 0) (vert (createGrid 2 1 1 1) ii jj kk) ∧
              sqDist (vert (createGrid 2 1 1 1) 0 0 0) (vert (createGrid 2 1 1 1) ii jj kk) < hRad * hRad then
            (1 - (fun _ => (1:ℚ)) (sqDist (vert (createGrid 2 1 1 1) 0 0 0) (vert (createGrid 2 1 1 1) ii jj kk)) / hRad) *
              (1 - (fun _ => (1:ℚ)) (sqDist (vert (createGrid 2 1 1 1) 0 0 0) (vert (createGrid 2 1 1 1) ii jj kk)) / hRad)
          else 0 :=
  density_pass_sum (fun _ => 1) 1 (createGrid 2 1 1 1) false false
    (by rw [createGrid_nx]; norm_num) (by rw [createGrid_ny]; norm_num)
    (by rw [createGrid_nz]; norm_num)

/-- C5: a particle with no other particle strictly within distance h gets
density 0 from the density pass, and the pressure the force pass derives
from that density is stiffness·(0 - restDensity) = -stiffness·restDensity. -/
theorem isolated_particle (rsqrt : ℚ → ℚ) (dt : ℚ) (g : Grille) (pm sm : Bool)
    {i j k : ℕ} (hi : i < g.nx) (hj : j < g.ny) (hk : k < g.nz)
    (hiso : ∀ ii jj kk : ℕ, ii < g.nx → jj < g.ny → kk < g.nz →
      ¬(ii = i ∧ jj = j ∧ kk = k) →
      hRad * hRad ≤ sqDist (vert g i j k) (vert g ii jj kk)) :
    (updateGrid rsqrt dt g pm sm).div i j k = 0 ∧
    pressureOf (restDensityOf (g.nx * g.ny * g.nz))
        ((updateGrid rsqrt dt g pm sm).div i j k) =
      -(stiffness * restDensityOf (g.nx * g.ny * g.nz)) := by
  have h0 : (updateGrid rsqrt dt g pm sm).div i j k = 0 := by
    rw [div_updateGrid rsqrt dt g pm sm hi hj hk]
    unfold densityAt
    apply Finset.sum_eq_zero
    intro ii hii
    apply Finset.sum_eq_zero
    intro jj hjj
    apply Finset.sum_eq_zero
    intro kk hkk
    by_cases hself : ii = i ∧ jj = j ∧ kk = k
    · rw [if_pos hself]
    · rw [if_neg hself]
      unfold densPair
      rw [if_neg]
      rintro ⟨-, hlt⟩
      exact absurd hlt (not_lt.2 (hiso ii jj kk (Finset.mem_range.mp hii)
        (Finset.mem_range.mp hjj) (Finset.mem_range.mp hkk) hself))
  refine ⟨h0, ?_⟩
  rw [h0]
  unfold pressureOf
  ring

/-- C5 witness: a 2×1×1 grid with the two particles ten units apart (built by
`createGrid 2 1 1 10`); particle (0,0,0) is isolated and its step pressure is
-stiffness·restDensity. -/
theorem isolated_particle_witness :
    (updateGrid (fun _ => 0) 1 (createGrid 2 1 1 10) false false).div 0 0 0 = 0 ∧
    pressureOf (restDensityOf (2 * 1 * 1))
        ((updateGrid (fun _ => 0) 1 (createGrid 2 1 1 10) false false).div 0 0 0) =
      -(stiffness * restDensityOf (2 * 1 * 1)) :=
  isolated_particle (fun _ => 0) 1 (createGrid 2 1 1 10) false false
    (by rw [createGrid_nx]; norm_num) (by rw [createGrid_ny]; norm_num)
    (by rw [createGrid_nz]; norm_num)
    (by
      intro ii jj kk hii hjj hkk hne
      rw [createGrid_nx] at hii
      rw [createGrid_ny] at hjj
      rw [createGrid_nz] at hkk
      have hjj' : jj = 0 := by omega
      have hkk' : kk = 0 := by omega
      have hii' : ii = 1 := by
        rcases (by omega : ii = 0 ∨ ii = 1) with h | h
        · exact absurd ⟨h, hjj', hkk'⟩ hne
        · exact h
      subst hii'; subst hjj'; subst hkk'
      have hv0 : vert (createGrid 2 1 1 10) 0 0 0 = ⟨0, 5, 0, 0, 0, 0⟩ := by
        have h := createGrid_records 2 1 1 10 (by norm_num) (by norm_num) (by norm_num)
          (by norm_num) (i := 0) (j := 0) (k := 0) (by norm_num) (by norm_num) (by norm_num)
        rw [vert]
        show (createGrid 2 1 1 10).vertices.getD (idx3 0 0 0 1 1) default = _
        rw [h.2]
        simp only [Vertex.mk.injEq]
        norm_num
      have hv1 : vert (createGrid 2 1 1 10) 1 0 0 = ⟨10, 5, 0, 0, 0, 0⟩ := by
        have h := createGrid_records 2 1 1 10 (by norm_num) (by norm_num) (by norm_num)
          (by norm_num) (i := 1) (j := 0) (k := 0) (by norm_num) (by norm_num) (by norm_num)
        rw [vert]
        show (createGrid 2 1 1 10).vertices.getD (idx3 1 0 0 1 1) default = _
        rw [h.2]
        simp only [Vertex.mk.injEq]
        norm_num
      rw [hv0, hv1]
      norm_num [sqDist, hRad])

lemma step_as_phases (rsqrt : ℚ → ℚ) (dt : ℚ) (g : Grille) (pm sm : Bool) :
    updateGrid rsqrt dt g pm sm =
      phase3 rsqrt dt (phase2 rsqrt (restDensityOf (g.nx * g.ny * g.nz))
        (phase1 rsqrt (phase0 g)) pm sm) sm := rfl

lemma length_vert_phase2 (rsqrt : ℚ → ℚ) (R : ℚ) (g : Grille) (pm sm : Bool) :
    (phase2 rsqrt R g pm sm).vertices.length = g.vertices.length :=
  length_writeVerts g.vertices (phase2VertF R g pm sm)

lemma axisClamp_mem (pos vel lo hi : ℚ) (h : lo + epsWall ≤ hi - epsWall) :
    lo + epsWall ≤ (axisClamp pos vel lo hi).1 ∧
    (axisClamp pos vel lo hi).1 ≤ hi - epsWall := by
  unfold axisClamp
  split_ifs with h1 h2
  · exact ⟨le_refl _, h⟩
  · exact ⟨h, le_refl _⟩
  · exact ⟨not_lt.1 h1, not_lt.1 h2⟩

lemma integrateCell_pos (rsqrt : ℚ → ℚ) (dt : ℚ) (sm : Bool) (v : Vertex)
    (vx0 vy0 vz0 ax0 ay0 az0 : ℚ) :
    ((integrateCell rsqrt dt sm v vx0 vy0 vz0 ax0 ay0 az0).1).x =
      (axisClamp (v.x + (vx0 + ax0 * dt) * dt) (vx0 + ax0 * dt) minX maxX).1 ∧
    ((integrateCell rsqrt dt sm v vx0 vy0 vz0 ax0 ay0 az0).1).y =
      (axisClamp (v.y + (vy0 + ay0 * dt) * dt) (vy0 + ay0 * dt) minY maxY).1 ∧
    ((integrateCell rsqrt dt sm v vx0 vy0 vz0 ax0 ay0 az0).1).z =
      (axisClamp (v.z + (vz0 + az0 * dt) * dt) (vz0 + az0 * dt) minZ maxZ).1 := by
  cases sm <;> exact ⟨rfl, rfl, rfl⟩

lemma length_vert_phase3 (rsqrt : ℚ → ℚ) (dt : ℚ) (g : Grille) (sm : Bool) :
    (phase3 rsqrt dt g sm).vertices.length = g.vertices.length :=
  length_writeVerts g.vertices (phase3VertF rsqrt dt g sm)

/-- C1: after any `Step`, every particle's position lies within
[min+epsilon, max-epsilon] on all three axes, for any initial state, any dt
and any flag combination.  The step also preserves the record count and the
lattice dimensions, so the bound holds after every step of any sequence of
steps. -/
theorem step_containment (rsqrt : ℚ → ℚ) (dt : ℚ) (g : Grille) (pm sm : Bool)
    (hlen : g.vertices.length = g.nx * g.ny * g.nz)
    {i j k : ℕ} (hi : i < g.nx) (hj : j < g.ny) (hk : k < g.nz) :
    (updateGrid rsqrt dt g pm sm).vertices.length =
      (updateGrid rsqrt dt g pm sm).nx * (updateGrid rsqrt dt g pm sm).ny *
        (updateGrid rsqrt dt g pm sm).nz ∧
    (updateGrid rsqrt dt g pm sm).nx = g.nx ∧
    (updateGrid rsqrt dt g pm sm).ny = g.ny ∧
    (updateGrid rsqrt dt g pm sm).nz = g.nz ∧
    minX + epsWall ≤ (vert (updateGrid rsqrt dt g pm sm) i j k).x ∧
    (vert (updateGrid rsqrt dt g pm sm) i j k).x ≤ maxX - epsWall ∧
    minY + epsWall ≤ (vert (updateGrid rsqrt dt g pm sm) i j k).y ∧
    (vert (updateGrid rsqrt dt g pm sm) i j k).y ≤ maxY - epsWall ∧
    minZ + epsWall ≤ (vert (updateGrid rsqrt dt g pm sm) i j k).z ∧
    (vert (updateGrid rsqrt dt g pm sm) i j k).z ≤ maxZ - epsWall := by
  have hlen2 : (phase2 rsqrt (restDensityOf (g.nx * g.ny * g.nz))
      (phase1 rsqrt (phase0 g)) pm sm).vertices.length = g.nx * g.ny * g.nz := by
    rw [length_vert_phase2]
    exact hlen
  have hv := vert_phase3 rsqrt dt (phase2 rsqrt (restDensityOf (g.nx * g.ny * g.nz))
    (phase1 rsqrt (phase0 g)) pm sm) sm hlen2 hi hj hk
  have hkeep : (updateGrid rsqrt dt g pm sm).vertices.length =
      (updateGrid rsqrt dt g pm sm).nx * (updateGrid rsqrt dt g pm sm).ny *
        (updateGrid rsqrt dt g pm sm).nz := by
    rw [step_as_phases, length_vert_phase3, length_vert_phase2]
    exact hlen
  have hbx : minX + epsWall ≤ maxX - epsWall := by unfold minX maxX epsWall; norm_num
  have hby : minY + epsWall ≤ maxY - epsWall := by unfold minY maxY epsWall; norm_num
  have hbz : minZ + epsWall ≤ maxZ - epsWall := by unfold minZ maxZ epsWall; norm_num
  refine ⟨hkeep, rfl, rfl, rfl, ?_, ?_, ?_, ?_, ?_, ?_⟩
  · rw [step_as_phases, hv, (integrateCell_pos rsqrt dt sm _ _ _ _ _ _ _).1]
    exact (axisClamp_mem _ _ _ _ hbx).1
  · rw [step_as_phases, hv, (integrateCell_pos rsqrt dt sm _ _ _ _ _ _ _).1]
    exact (axisClamp_mem _ _ _ _ hbx).2
  · rw [step_as_phases, hv, (integrateCell_pos rsqrt dt sm _ _ _ _ _ _ _).2.1]
    exact (axisClamp_mem _ _ _ _ hby).1
  · rw [step_as_phases, hv, (integrateCell_pos rsqrt dt sm _ _ _ _ _ _ _).2.1]
    exact (axisClamp_mem _ _ _ _ hby).2
  · rw [step_as_phases, hv, (integrateCell_pos rsqrt dt sm _ _ _ _ _ _ _).2.2]
    exact (axisClamp_mem _ _ _ _ hbz).1
  · rw [step_as_phases, hv, (integrateCell_pos rsqrt dt sm _ _ _ _ _ _ _).2.2]
    exact (axisClamp_mem _ _ _ _ hbz).2

/-- C1 witness: one step of dt = 1 on the single-particle fresh grid keeps
the particle inside the padded domain box. -/
theorem step_containment_witness :
    (updateGrid (fun _ => 0) 1 (createGrid 1 1 1 1) false false).vertices.length =
      (updateGrid (fun _ => 0) 1 (createGrid 1 1 1 1) false false).nx *
        (updateGrid (fun _ => 0) 1 (createGrid 1 1 1 1) false false).ny *
        (updateGrid (fun _ => 0) 1 (createGrid 1 1 1 1) false false).nz ∧
    (updateGrid (fun _ => 0) 1 (createGrid 1 1 1 1) false false).nx = (createGrid 1 1 1 1).nx ∧
    (updateGrid (fun _ => 0) 1 (createGrid 1 1 1 1) false false).ny = (createGrid 1 1 1 1).ny ∧
    (updateGrid (fun _ => 0) 1 (createGrid 1 1 1 1) false false).nz = (createGrid 1 1 1 1).nz ∧
    minX + epsWall ≤ (vert (updateGrid (fun _ => 0) 1 (createGrid 1 1 1 1) false false) 0 0 0).x ∧
    (vert (updateGrid (fun _ => 0) 1 (createGrid 1 1 1 1) false false) 0 0 0).x ≤ maxX - epsWall ∧
    minY + epsWall ≤ (vert (updateGrid (fun _ => 0) 1 (createGrid 1 1 1 1) false false) 0 0 0).y ∧
    (vert (updateGrid (fun _ => 0) 1 (createGrid 1 1 1 1) false false) 0 0 0).y ≤ maxY - epsWall ∧
    minZ + epsWall ≤ (vert (updateGrid (fun _ => 0) 1 (createGrid 1 1 1 1) false false) 0 0 0).z ∧
    (vert (updateGrid (fun _ => 0) 1 (createGrid 1 1 1 1) false false) 0 0 0).z ≤ maxZ - epsWall :=
  step_containment (fun _ => 0) 1 (createGrid 1 1 1 1) false false
    (by simp [createGrid, mkGrille])
    (by rw [createGrid_nx]; norm_num) (by rw [createGrid_ny]; norm_num)
    (by rw [createGrid_nz]; norm_num)

/-- C7: when both colour flags are set, the colour a step leaves on every
particle is the speed colour computed from the post-integration velocity
(|v|/15 clamped to 1, through the blue→red gradient), overwriting the
pressure colour written by the force pass. -/
theorem speed_mode_wins (rsqrt : ℚ → ℚ) (dt : ℚ) (g : Grille)
    (hlen : g.vertices.length = g.nx * g.ny * g.nz)
    {i j k : ℕ} (hi : i < g.nx) (hj : j < g.ny) (hk : k < g.nz) :
    (vert (updateGrid rsqrt dt g true true) i j k).r =
      (gradColor (min (rsqrt
        ((updateGrid rsqrt dt g true true).vx i j k * (updateGrid rsqrt dt g true true).vx i j k
          + (updateGrid rsqrt dt g true true).vy i j k * (updateGrid rsqrt dt g true true).vy i j k
          + (updateGrid rsqrt dt g true true).vz i j k * (updateGrid rsqrt dt g true true).vz i j k)
        / 15) 1)).1 ∧
    (vert (updateGrid rsqrt dt g true true) i j k).g =
      (gradColor (min (rsqrt
        ((updateGrid rsqrt dt g true true).vx i j k * (updateGrid rsqrt dt g true true).vx i j k
          + (updateGrid rsqrt dt g true true).vy i j k * (updateGrid rsqrt dt g true true).vy i j k
          + (updateGrid rsqrt dt g true true).vz i j k * (updateGrid rsqrt dt g true true).vz i j k)
        / 15) 1)).2.1 ∧
    (vert (updateGrid rsqrt dt g true true) i j k).b =
      (gradColor (min (rsqrt
        ((updateGrid rsqrt dt g true true).vx i j k * (updateGrid rsqrt dt g true true).vx i j k
          + (updateGrid rsqrt dt g true true).vy i j k * (updateGrid rsqrt dt g true true).vy i j k
          + (updateGrid rsqrt dt g true true).vz i j k * (updateGrid rsqrt dt g true true).vz i j k)
        / 15) 1)).2.2 := by
  have hlen2 : (phase2 rsqrt (restDensityOf (g.nx * g.ny * g.nz))
      (phase1 rsqrt (phase0 g)) true true).vertices.length = g.nx * g.ny * g.nz := by
    rw [length_vert_phase2]
    exact hlen
  have hv := vert_phase3 rsqrt dt (phase2 rsqrt (restDensityOf (g.nx * g.ny * g.nz))
    (phase1 rsqrt (phase0 g)) true true) true hlen2 hi hj hk
  have hvx := vx_phase3 rsqrt dt (phase2 rsqrt (restDensityOf (g.nx * g.ny * g.nz))
    (phase1 rsqrt (phase0 g)) true true) true hi hj hk
  have hvy := vy_phase3 rsqrt dt (phase2 rsqrt (restDensityOf (g.nx * g.ny * g.nz))
    (phase1 rsqrt (phase0 g)) true true) true hi hj hk
  have hvz := vz_phase3 rsqrt dt (phase2 rsqrt (restDensityOf (g.nx * g.ny * g.nz))
    (phase1 rsqrt (phase0 g)) true true) true hi hj hk
  rw [step_as_phases, hv, hvx, hvy, hvz]
  exact ⟨rfl, rfl, rfl⟩

/-- C7 witness: a dt = 1 step with both flags set on the single-particle
fresh grid. -/
theorem speed_mode_wins_witness :
    (vert (updateGrid (fun _ => 0) 1 (createGrid 1 1 1 1) true true) 0 0 0).r =
      (gradColor (min ((fun _ => (0:ℚ))
        ((updateGrid (fun _ => 0) 1 (createGrid 1 1 1 1) true true).vx 0 0 0 * (updateGrid (fun _ => 0) 1 (createGrid 1 1 1 1) true true).vx 0 0 0
          + (updateGrid (fun _ => 0) 1 (createGrid 1 1 1 1) true true).vy 0 0 0 * (updateGrid (fun _ => 0) 1 (createGrid 1 1 1 1) true true).vy 0 0 0
          + (updateGrid (fun _ => 0) 1 (createGrid 1 1 1 1) true true).vz 0 0 0 * (updateGrid (fun _ => 0) 1 (createGrid 1 1 1 1) true true).vz 0 0 0)
        / 15) 1)).1 ∧
    (vert (updateGrid (fun _ => 0) 1 (createGrid 1 1 1 1) true true) 0 0 0).g =
      (gradColor (min ((fun _ => (0:ℚ))
        ((updateGrid (fun _ => 0) 1 (createGrid 1 1 1 1) true true).vx 0 0 0 * (updateGrid (fun _ => 0) 1 (createGrid 1 1 1 1) true true).vx 0 0 0
          + (updateGrid (fun _ => 0) 1 (createGrid 1 1 1 1) true true).vy 0 0 0 * (updateGrid (fun _ => 0) 1 (createGrid 1 1 1 1) true true).vy 0 0 0
          + (updateGrid (fun _ => 0) 1 (createGrid 1 1 1 1) true true).vz 0 0 0 * (updateGrid (fun _ => 0) 1 (createGrid 1 1 1 1) true true).vz 0 0 0)
        / 15) 1)).2.1 ∧
    (vert (updateGrid (fun _ => 0) 1 (createGrid 1 1 1 1) true true) 0 0 0).b =
      (gradColor (min ((fun _ => (0:ℚ))
        ((updateGrid (fun _ => 0) 1 (createGrid 1 1 1 1) true true).vx 0 0 0 * (updateGrid (fun _ => 0) 1 (createGrid 1 1 1 1) true true).vx 0 0 0
          + (updateGrid (fun _ => 0) 1 (createGrid 1 1 1 1) true true).vy 0 0 0 * (updateGrid (fun _ => 0) 1 (createGrid 1 1 1 1) true true).vy 0 0 0
          + (updateGrid (fun _ => 0) 1 (createGrid 1 1 1 1) true true).vz 0 0 0 * (updateGrid (fun _ => 0) 1 (createGrid 1 1 1 1) true true).vz 0 0 0)
        / 15) 1)).2.2 :=
  speed_mode_wins (fun _ => 0) 1 (createGrid 1 1 1 1)
    (by simp [createGrid, mkGrille])
    (by rw [createGrid_nx]; norm_num) (by rw [createGrid_ny]; norm_num)
    (by rw [createGrid_nz]; norm_num)

lemma integrateCell_color_off (rsqrt : ℚ → ℚ) (dt : ℚ) (v : Vertex)
    (vx0 vy0 vz0 ax0 ay0 az0 : ℚ) :
    ((integrateCell rsqrt dt false v vx0 vy0 vz0 ax0 ay0 az0).1).r = v.r ∧
    ((integrateCell rsqrt dt false v vx0 vy0 vz0 ax0 ay0 az0).1).g = v.g ∧
    ((integrateCell rsqrt dt false v vx0 vy0 vz0 ax0 ay0 az0).1).b = v.b :=
  ⟨rfl, rfl, rfl⟩

/-- C6: `restDensity` equals the domain volume 20·60·20 divided by the fixed
particle count N, recomputed from the fixed bounds at the start of the step;
and every particle's pressure colour in a pressure-mode step is derived by
`pressureOf` from that one shared value (together with the particle's own
step density). -/
theorem restDensity_step (rsqrt : ℚ → ℚ) (dt : ℚ) (g : Grille)
    (hlen : g.vertices.length = g.nx * g.ny * g.nz)
    {i j k : ℕ} (hi : i < g.nx) (hj : j < g.ny) (hk : k < g.nz) :
    restDensityOf (g.nx * g.ny * g.nz) =
      (maxX - minX) * (maxY - minY) * (maxZ - minZ) / ((g.nx * g.ny * g.nz : ℕ) : ℚ) ∧
    (vert (updateGrid rsqrt dt g true false) i j k).r =
      (pressColor (restDensityOf (g.nx * g.ny * g.nz))
        (pressureOf (restDensityOf (g.nx * g.ny * g.nz))
          ((updateGrid rsqrt dt g true false).div i j k))).1 ∧
    (vert (updateGrid rsqrt dt g true false) i j k).g =
      (pressColor (restDensityOf (g.nx * g.ny * g.nz))
        (pressureOf (restDensityOf (g.nx * g.ny * g.nz))
          ((updateGrid rsqrt dt g true false).div i j k))).2.1 ∧
    (vert (updateGrid rsqrt dt g true false) i j k).b =
      (pressColor (restDensityOf (g.nx * g.ny * g.nz))
        (pressureOf (restDensityOf (g.nx * g.ny * g.nz))
          ((updateGrid rsqrt dt g true false).div i j k))).2.2 := by
  have hlen1 : (phase1 rsqrt (phase0 g)).vertices.length =
      (phase1 rsqrt (phase0 g)).nx * (phase1 rsqrt (phase0 g)).ny *
        (phase1 rsqrt (phase0 g)).nz := hlen
  have hlen2 : (phase2 rsqrt (restDensityOf (g.nx * g.ny * g.nz))
      (phase1 rsqrt (phase0 g)) true false).vertices.length = g.nx * g.ny * g.nz := by
    rw [length_vert_phase2]
    exact hlen
  have hv := vert_phase3 rsqrt dt (phase2 rsqrt (restDensityOf (g.nx * g.ny * g.nz))
    (phase1 rsqrt (phase0 g)) true false) false hlen2 hi hj hk
  have hvc := vert_phase2 rsqrt (restDensityOf (g.nx * g.ny * g.nz))
    (phase1 rsqrt (phase0 g)) true false hlen1 hi hj hk
  refine ⟨rfl, ?_, ?_, ?_⟩
  · rw [step_as_phases, hv, (integrateCell_color_off _ _ _ _ _ _ _ _ _).1, hvc]
    rfl
  · rw [step_as_phases, hv, (integrateCell_color_off _ _ _ _ _ _ _ _ _).2.1, hvc]
    rfl
  · rw [step_as_phases, hv, (integrateCell_color_off _ _ _ _ _ _ _ _ _).2.2, hvc]
    rfl

/-- C6 witness: a pressure-mode step on the single-particle fresh grid. -/
theorem restDensity_step_witness :
    restDensityOf ((createGrid 1 1 1 1).nx * (createGrid 1 1 1 1).ny * (createGrid 1 1 1 1).nz) =
      (maxX - minX) * (maxY - minY) * (maxZ - minZ) /
        (((createGrid 1 1 1 1).nx * (createGrid 1 1 1 1).ny * (createGrid 1 1 1 1).nz : ℕ) : ℚ) ∧
    (vert (updateGrid (fun _ => 0) 1 (createGrid 1 1 1 1) true false) 0 0 0).r =
      (pressColor (restDensityOf ((createGrid 1 1 1 1).nx * (createGrid 1 1 1 1).ny * (createGrid 1 1 1 1).nz))
        (pressureOf (restDensityOf ((createGrid 1 1 1 1).nx * (createGrid 1 1 1 1).ny * (createGrid 1 1 1 1).nz))
          ((updateGrid (fun _ => 0) 1 (createGrid 1 1 1 1) true false).div 0 0 0))).1 ∧
    (vert (updateGrid (fun _ => 0) 1 (createGrid 1 1 1 1) true false) 0 0 0).g =
      (pressColor (restDensityOf ((createGrid 1 1 1 1).nx * (createGrid 1 1 1 1).ny * (createGrid 1 1 1 1).nz))
        (pressureOf (restDensityOf ((createGrid 1 1 1 1).nx * (createGrid 1 1 1 1).ny * (createGrid 1 1 1 1).nz))
          ((updateGrid (fun _ => 0) 1 (createGrid 1 1 1 1) true false).div 0 0 0))).2.1 ∧
    (vert (updateGrid (fun _ => 0) 1 (createGrid 1 1 1 1) true false) 0 0 0).b =
      (pressColor (restDensityOf ((createGrid 1 1 1 1).nx * (createGrid 1 1 1 1).ny * (createGrid 1 1 1 1).nz))
        (pressureOf (restDensityOf ((createGrid 1 1 1 1).nx * (createGrid 1 1 1 1).ny * (createGrid 1 1 1 1).nz))
          ((updateGrid (fun _ => 0) 1 (createGrid 1 1 1 1) true false).div 0 0 0))).2.2 :=
  restDensity_step (fun _ => 0) 1 (createGrid 1 1 1 1)
    (by simp [createGrid, mkGrille])
    (by rw [createGrid_nx]; norm_num) (by rw [createGrid_ny]; norm_num)
    (by rw [createGrid_nz]; norm_num)

lemma axisClamp_id (pos vel lo hi : ℚ) (h1 : lo + epsWall < pos)
    (h2 : pos < hi - epsWall) : axisClamp pos vel lo hi = (pos, vel) := by
  unfold axisClamp
  rw [if_neg (not_lt.2 h1.le), if_neg (not_lt.2 h2.le)]

lemma integrateCell_freeze (rsqrt : ℚ → ℚ) (sm : Bool) (v : Vertex)
    (vx0 vy0 vz0 ax0 ay0 az0 : ℚ)
    (hx1 : minX + epsWall < v.x) (hx2 : v.x < maxX - epsWall)
    (hy1 : minY + epsWall < v.y) (hy2 : v.y < maxY - epsWall)
    (hz1 : minZ + epsWall < v.z) (hz2 : v.z < maxZ - epsWall) :
    ((integrateCell rsqrt 0 sm v vx0 vy0 vz0 ax0 ay0 az0).1).x = v.x ∧
    ((integrateCell rsqrt 0 sm v vx0 vy0 vz0 ax0 ay0 az0).1).y = v.y ∧
    ((integrateCell rsqrt 0 sm v vx0 vy0 vz0 ax0 ay0 az0).1).z = v.z ∧
    (integrateCell rsqrt 0 sm v vx0 vy0 vz0 ax0 ay0 az0).2.1 = vx0 ∧
    (integrateCell rsqrt 0 sm v vx0 vy0 vz0 ax0 ay0 az0).2.2.1 = vy0 ∧
    (integrateCell rsqrt 0 sm v vx0 vy0 vz0 ax0 ay0 az0).2.2.2 = vz0 := by
  have hax : axisClamp v.x vx0 minX maxX = (v.x, vx0) :=
    axisClamp_id _ _ _ _ hx1 hx2
  have hay : axisClamp v.y vy0 minY maxY = (v.y, vy0) :=
    axisClamp_id _ _ _ _ hy1 hy2
  have haz : axisClamp v.z vz0 minZ maxZ = (v.z, vz0) :=
    axisClamp_id _ _ _ _ hz1 hz2
  cases sm <;> simp [integrateCell, hax, hay, haz]

lemma vert_phase01 (rsqrt : ℚ → ℚ) (g : Grille) (i j k : ℕ) :
    vert (phase1 rsqrt (phase0 g)) i j k = vert g i j k := rfl

lemma vert_phase2_posn (rsqrt : ℚ → ℚ) (R : ℚ) (g : Grille) (pm sm : Bool)
    (hlen : g.vertices.length = g.nx * g.ny * g.nz)
    {i j k : ℕ} (hi : i < g.nx) (hj : j < g.ny) (hk : k < g.nz) :
    (vert (phase2 rsqrt R g pm sm) i j k).x = (vert g i j k).x ∧
    (vert (phase2 rsqrt R g pm sm) i j k).y = (vert g i j k).y ∧
    (vert (phase2 rsqrt R g pm sm) i j k).z = (vert g i j k).z := by
  rw [vert_phase2 rsqrt R g pm sm hlen hi hj hk]
  split_ifs <;> exact ⟨rfl, rfl, rfl⟩

/-- C10: a step with dt = 0 on a state whose particles are all strictly
inside the padded domain box leaves every particle's position and velocity
unchanged (densities, accelerations and colours may still change). -/
theorem step_dt_zero (rsqrt : ℚ → ℚ) (g : Grille) (pm sm : Bool)
    (hlen : g.vertices.length = g.nx * g.ny * g.nz)
    (hin : ∀ ii jj kk : ℕ, ii < g.nx → jj < g.ny → kk < g.nz →
      (minX + epsWall < (vert g ii jj kk).x ∧ (vert g ii jj kk).x < maxX - epsWall ∧
       minY + epsWall < (vert g ii jj kk).y ∧ (vert g ii jj kk).y < maxY - epsWall ∧
       minZ + epsWall < (vert g ii jj kk).z ∧ (vert g ii jj kk).z < maxZ - epsWall))
    {i j k : ℕ} (hi : i < g.nx) (hj : j < g.ny) (hk : k < g.nz) :
    (vert (updateGrid rsqrt 0 g pm sm) i j k).x = (vert g i j k).x ∧
    (vert (updateGrid rsqrt 0 g pm sm) i j k).y = (vert g i j k).y ∧
    (vert (updateGrid rsqrt 0 g pm sm) i j k).z = (vert g i j k).z ∧
    (updateGrid rsqrt 0 g pm sm).vx i j k = g.vx i j k ∧
    (updateGrid rsqrt 0 g pm sm).vy i j k = g.vy i j k ∧
    (updateGrid rsqrt 0 g pm sm).vz i j k = g.vz i j k := by
  have hlen1 : (phase1 rsqrt (phase0 g)).vertices.length =
      (phase1 rsqrt (phase0 g)).nx * (phase1 rsqrt (phase0 g)).ny *
        (phase1 rsqrt (phase0 g)).nz := hlen
  have hlen2 : (phase2 rsqrt (restDensityOf (g.nx * g.ny * g.nz))
      (phase1 rsqrt (phase0 g)) pm sm).vertices.length = g.nx * g.ny * g.nz := by
    rw [length_vert_phase2]
    exact hlen
  obtain ⟨px, py, pz⟩ := vert_phase2_posn rsqrt (restDensityOf (g.nx * g.ny * g.nz))
    (phase1 rsqrt (phase0 g)) pm sm hlen1 hi hj hk
  obtain ⟨bx1, bx2, by1, by2, bz1, bz2⟩ := hin i j k hi hj hk
  have hfz := integrateCell_freeze rsqrt sm
    (vert (phase2 rsqrt (restDensityOf (g.nx * g.ny * g.nz)) (phase1 rsqrt (phase0 g)) pm sm) i j k)
    ((phase2 rsqrt (restDensityOf (g.nx * g.ny * g.nz)) (phase1 rsqrt (phase0 g)) pm sm).vx i j k)
    ((phase2 rsqrt (restDensityOf (g.nx * g.ny * g.nz)) (phase1 rsqrt (phase0 g)) pm sm).vy i j k)
    ((phase2 rsqrt (restDensityOf (g.nx * g.ny * g.nz)) (phase1 rsqrt (phase0 g)) pm sm).vz i j k)
    ((phase2 rsqrt (restDensityOf (g.nx * g.ny * g.nz)) (phase1 rsqrt (phase0 g)) pm sm).ax i j k)
    ((phase2 rsqrt (restDensityOf (g.nx * g.ny * g.nz)) (phase1 rsqrt (phase0 g)) pm sm).ay i j k)
    ((phase2 rsqrt (restDensityOf (g.nx * g.ny * g.nz)) (phase1 rsqrt (phase0 g)) pm sm).az i j k)
    (by rw [px, vert_phase01]; exact bx1) (by rw [px, vert_phase01]; exact bx2)
    (by rw [py, vert_phase01]; exact by1) (by rw [py, vert_phase01]; exact by2)
    (by rw [pz, vert_phase01]; exact bz1) (by rw [pz, vert_phase01]; exact bz2)
  have hv := vert_phase3 rsqrt 0 (phase2 rsqrt (restDensityOf (g.nx * g.ny * g.nz))
    (phase1 rsqrt (phase0 g)) pm sm) sm hlen2 hi hj hk
  have hvx := vx_phase3 rsqrt 0 (phase2 rsqrt (restDensityOf (g.nx * g.ny * g.nz))
    (phase1 rsqrt (phase0 g)) pm sm) sm hi hj hk
  have hvy := vy_phase3 rsqrt 0 (phase2 rsqrt (restDensityOf (g.nx * g.ny * g.nz))
    (phase1 rsqrt (phase0 g)) pm sm) sm hi hj hk
  have hvz := vz_phase3 rsqrt 0 (phase2 rsqrt (restDensityOf (g.nx * g.ny * g.nz))
    (phase1 rsqrt (phase0 g)) pm sm) sm hi hj hk
  refine ⟨?_, ?_, ?_, ?_, ?_, ?_⟩
  · rw [step_as_phases, hv, hfz.1, px, vert_phase01]
  · rw [step_as_phases, hv, hfz.2.1, py, vert_phase01]
  · rw [step_as_phases, hv, hfz.2.2.1, pz, vert_phase01]
  · rw [step_as_phases, hvx, hfz.2.2.2.1]
    rfl
  · rw [step_as_phases, hvy, hfz.2.2.2.2.1]
    rfl
  · rw [step_as_phases, hvz, hfz.2.2.2.2.2]
    rfl

/-- C10 witness: a single particle at (10, 5, 10), strictly inside the box,
stepped with dt = 0: its position and velocity are unchanged. -/
theorem step_dt_zero_witness :
    (vert (updateGrid (fun _ => 0) 0 (mkGrille 1 1 1 [⟨10, 5, 10, 0, 0, 0⟩]) false false) 0 0 0).x =
      (vert (mkGrille 1 1 1 [⟨10, 5, 10, 0, 0, 0⟩]) 0 0 0).x ∧
    (vert (updateGrid (fun _ => 0) 0 (mkGrille 1 1 1 [⟨10, 5, 10, 0, 0, 0⟩]) false false) 0 0 0).y =
      (vert (mkGrille 1 1 1 [⟨10, 5, 10, 0, 0, 0⟩]) 0 0 0).y ∧
    (vert (updateGrid (fun _ => 0) 0 (mkGrille 1 1 1 [⟨10, 5, 10, 0, 0, 0⟩]) false false) 0 0 0).z =
      (vert (mkGrille 1 1 1 [⟨10, 5, 10, 0, 0, 0⟩]) 0 0 0).z ∧
    (updateGrid (fun _ => 0) 0 (mkGrille 1 1 1 [⟨10, 5, 10, 0, 0, 0⟩]) false false).vx 0 0 0 =
      (mkGrille 1 1 1 [⟨10, 5, 10, 0, 0, 0⟩]).vx 0 0 0 ∧
    (updateGrid (fun _ => 0) 0 (mkGrille 1 1 1 [⟨10, 5, 10, 0, 0, 0⟩]) false false).vy 0 0 0 =
      (mkGrille 1 1 1 [⟨10, 5, 10, 0, 0, 0⟩]).vy 0 0 0 ∧
    (updateGrid (fun _ => 0) 0 (mkGrille 1 1 1 [⟨10, 5, 10, 0, 0, 0⟩]) false false).vz 0 0 0 =
      (mkGrille 1 1 1 [⟨10, 5, 10, 0, 0, 0⟩]).vz 0 0 0 :=
  step_dt_zero (fun _ => 0) (mkGrille 1 1 1 [⟨10, 5, 10, 0, 0, 0⟩]) false false rfl
    (by
      intro ii jj kk hii hjj hkk
      have hii0 : ii = 0 := by
        have : ii < 1 := hii
        omega
      have hjj0 : jj = 0 := by
        have : jj < 1 := hjj
        omega
      have hkk0 : kk = 0 := by
        have : kk < 1 := hkk
        omega
      subst hii0; subst hjj0; subst hkk0
      have hvv : vert (mkGrille 1 1 1 [⟨10, 5, 10, 0, 0, 0⟩]) 0 0 0 =
          ⟨10, 5, 10, 0, 0, 0⟩ := rfl
      rw [hvv]
      refine ⟨?_, ?_, ?_, ?_, ?_, ?_⟩ <;>
        norm_num [minX, maxX, minY, maxY, minZ, maxZ, epsWall])
    (by exact Nat.one_pos) (by exact Nat.one_pos) (by exact Nat.one_pos)

end FluidSim
